import Mathlib

/-!
Verification of `vllm/multimodal/profiling.py`: the dummy-input construction
and memory-profiling orchestration for multi-modal models.

Embedding conventions:
* Python `dict`s (string-keyed `Mapping`s) are represented as association
  lists `List (Modality × α)` in insertion order; a Python dict never holds
  a duplicate key, and every dict manipulated here is built by a
  comprehension over another dict, so first-match lookup agrees with Python
  lookup on all states the code can reach.
* The external collaborators (`BaseProcessingInfo`, the multi-modal
  processor's `apply`, the dummy-inputs builder) are modelled as record
  fields holding pure functions: the profiler treats them as black boxes.
* `numpy` arrays produced here are always constant-filled, so an array is
  modelled by its shape together with the fill value; a PIL image by its
  mode, size and the fill color exactly as passed to `Image.new`.
* Python exceptions (`ValueError`, `AssertionError`, `KeyError`) become an
  `Except ProfilingError` result; `logger.warning_once` is a side effect,
  modelled as an extra boolean component of the result ( true iff the
  warning statement was reached).
* `envs.VLLM_USE_V1` is an environment flag, passed as an explicit boolean
  argument `vllm_use_v1`.
-/

/-- Modality names ("image", "audio", "video", ...) are strings. -/
abbrev Modality := String

/-- First-match lookup in an association list, the embedding of Python
`d[k]` / `k in d` on dicts (`none` models a `KeyError`). -/
def dictLookup {α : Type} (d : List (Modality × α)) (k : Modality) : Option α :=
  match d.find? (fun p => p.1 == k) with
  | some p => some p.2
  | none => none

/-- A constant-filled numpy array: its shape and the fill value. -/
structure NDArray where
  shape : List Nat
  fill : Int
  deriving Repr, DecidableEq

/-- A PIL image as built by `Image.new(mode, (width, height), color)`;
the fill color is recorded exactly as passed. -/
structure PILImage where
  mode : String
  width : Nat
  height : Nat
  color : Nat
  deriving Repr, DecidableEq

/-- Embedding of `np.zeros((length,))`. -/
def np_zeros1 (length : Nat) : NDArray :=
  { shape := [length], fill := 0 }

/-- Embedding of `np.full(shape, fill_value)`. -/
def np_full (shape : List Nat) (fill_value : Int) : NDArray :=
  { shape := shape, fill := fill_value }

/-- Embedding of `Image.new(mode, (width, height), color)`. -/
def Image_new (mode : String) (width height : Nat) (color : Nat) : PILImage :=
  { mode := mode, width := width, height := height, color := color }

/-- Embedding of `BaseDummyInputsBuilder._get_dummy_audios`. -/
def _get_dummy_audios (length : Nat) (num_audios : Nat) : List NDArray :=
  let audio := np_zeros1 length
  List.replicate num_audios audio

/-- Embedding of `BaseDummyInputsBuilder._get_dummy_images`. -/
def _get_dummy_images (width : Nat) (height : Nat) (num_images : Nat) : List PILImage :=
  let image := Image_new "RGB" width height 255
  List.replicate num_images image

/-- Embedding of `BaseDummyInputsBuilder._get_dummy_videos`. -/
def _get_dummy_videos (width : Nat) (height : Nat) (num_frames : Nat)
    (num_videos : Nat) : List NDArray :=
  let video := np_full [num_frames, width, height, 3] 255
  List.replicate num_videos video

/-- Record `ProcessorInputs`: the keyword arguments to `processor.apply`.  The
multimodal payload and the HF processor kwargs are never inspected by the
profiler, so their types are parameters. -/
structure ProcessorInputs (mu om : Type) where
  prompt_text : String
  mm_data : mu
  hf_processor_mm_kwargs : om

/-- A processed-inputs record (`MultiModalInputs` / `MultiModalEncDecInputs`):
token ids, the opaque `mm_kwargs` payload (type parameter `ka`), the
per-modality placeholder mapping (each placeholder item is represented by
the value of its `get_num_embeds()` accessor), and the encoder-side token
ids (present after the `MultiModalEncDecInputs` cast in the encoder path). -/
structure MultiModalInputs (ka : Type) where
  prompt_token_ids : List Nat
  mm_kwargs : ka
  mm_placeholders : List (Modality × List Nat)
  encoder_prompt_token_ids : List Nat
  deriving DecidableEq

/-- Record `DummyEncoderData`. -/
structure DummyEncoderData where
  prompt_token_ids : List Nat
  deriving Repr, DecidableEq

/-- Record `DummyDecoderData`. -/
structure DummyDecoderData (ka : Type) where
  prompt_token_ids : List Nat
  multi_modal_data : ka
  multi_modal_placeholders : List (Modality × List Nat)
  deriving DecidableEq

/-- The `BaseProcessingInfo` collaborator, at its interface:
`get_supported_mm_limits`, `ctx.get_mm_config().get_limit_per_prompt`, and
`get_mm_max_tokens_per_item`. -/
structure BaseProcessingInfo where
  get_supported_mm_limits : List (Modality × Option Nat)
  get_limit_per_prompt : Modality → Nat
  get_mm_max_tokens_per_item : Nat → List (Modality × Nat) → List (Modality × Nat)

/-- The processor handed to `MultiModalProfiler`: its `info`, its
`dummy_inputs` builder (`get_dummy_processor_inputs`), its `apply`, and
(for the encoder-decoder cast) the `pad_dummy_encoder_prompt` flag. -/
structure MultiModalProcessorModel (mu om ka : Type) where
  info : BaseProcessingInfo
  get_dummy_processor_inputs : Nat → List (Modality × Nat) → ProcessorInputs mu om
  apply : String → mu → om → MultiModalInputs ka
  pad_dummy_encoder_prompt : Bool

/-- The exceptions the profiler can raise: the `ValueError` of
`get_mm_limits`, the two `AssertionError`s of `get_and_validate_mm_inputs`,
and the `KeyError` a dict subscript would raise. -/
inductive ProfilingError where
  | limitExceeded (modality : Modality) (limit : Nat) (supported : Nat)
  | assertSubset (mmCountKeys : List Modality) (maxTokenKeys : List Modality)
  | keyError (modality : Modality)
  | placeholderMismatch (total expected : List (Modality × Nat))
  deriving Repr, DecidableEq

/-- The `for modality, supported_limit in supported_mm_limits.items()` loop
of `get_mm_limits`: raise at the first modality whose configured limit
exceeds a non-null supported limit.  `mm_limits[modality]` cannot miss:
`mm_limits` was built over the very same keys, so the lookup is defaulted. -/
def checkLimits (mm_limits : List (Modality × Nat)) :
    List (Modality × Option Nat) → Option ProfilingError
  | [] => none
  | (modality, supported_limit) :: rest =>
    let limit := (dictLookup mm_limits modality).getD 0
    match supported_limit with
    | some s =>
      if s < limit then some (.limitExceeded modality limit s)
      else checkLimits mm_limits rest
    | none => checkLimits mm_limits rest

/-- Embedding of `MultiModalProfiler.get_mm_limits`. -/
def get_mm_limits (info : BaseProcessingInfo) :
    Except ProfilingError (List (Modality × Nat)) :=
  let supported_mm_limits := info.get_supported_mm_limits
  let mm_limits := supported_mm_limits.map
    (fun p => (p.1, info.get_limit_per_prompt p.1))
  match checkLimits mm_limits supported_mm_limits with
  | some e => .error e
  | none => .ok mm_limits

/-- Embedding of `MultiModalProfiler._get_dummy_mm_inputs`: build the dummy processor
inputs and run `processor.apply` on them. -/
def _get_dummy_mm_inputs {mu om ka : Type} (P : MultiModalProcessorModel mu om ka)
    (seq_len : Nat) (mm_counts : List (Modality × Nat)) : MultiModalInputs ka :=
  let processor_inputs := P.get_dummy_processor_inputs seq_len mm_counts
  P.apply processor_inputs.prompt_text processor_inputs.mm_data
    processor_inputs.hf_processor_mm_kwargs

/-- Computation of `total_placeholders_by_modality`: for each modality of
`mm_placeholders`, the sum of `get_num_embeds()` over its items. -/
def totalPlaceholders (placeholders_by_modality : List (Modality × List Nat)) :
    List (Modality × Nat) :=
  placeholders_by_modality.map (fun p => (p.1, p.2.sum))

/-- Computation of `expected_placeholders_by_modality`: the comprehension
`{m: mm_max_tokens_per_item[m] * mm_counts[m] for m in placeholders_by_modality}`,
evaluated left to right; a missing key raises `KeyError` at that element. -/
def buildExpected (mm_max_tokens_per_item mm_counts : List (Modality × Nat)) :
    List (Modality × List Nat) → Except ProfilingError (List (Modality × Nat))
  | [] => .ok []
  | (modality, _) :: rest =>
    match dictLookup mm_max_tokens_per_item modality with
    | none => .error (.keyError modality)
    | some maxTok =>
      match dictLookup mm_counts modality with
      | none => .error (.keyError modality)
      | some count =>
        match buildExpected mm_max_tokens_per_item mm_counts rest with
        | .error e => .error e
        | .ok tl => .ok ((modality, maxTok * count) :: tl)

/-- Embedding of `MultiModalProfiler.get_and_validate_mm_inputs`.  The two Python dicts
compared at the end enumerate the keys of `mm_placeholders` in the same
order, so dict equality coincides with entrywise list equality. -/
def get_and_validate_mm_inputs {mu om ka : Type}
    (P : MultiModalProcessorModel mu om ka) (seq_len : Nat)
    (mm_counts? : Option (List (Modality × Nat))) :
    Except ProfilingError (MultiModalInputs ka × List (Modality × Nat)) :=
  match (match mm_counts? with
         | none => get_mm_limits P.info
         | some c => .ok c : Except ProfilingError (List (Modality × Nat))) with
  | .error e => .error e
  | .ok mm_counts =>
    let mm_max_tokens_per_item := P.info.get_mm_max_tokens_per_item seq_len mm_counts
    -- `mm_counts.keys() - mm_max_tokens_per_item.keys()` is non-empty
    if (mm_counts.map Prod.fst).any
        (fun k => !((mm_max_tokens_per_item.map Prod.fst).contains k)) then
      .error (.assertSubset (mm_counts.map Prod.fst)
        (mm_max_tokens_per_item.map Prod.fst))
    else
      let mm_inputs := _get_dummy_mm_inputs P seq_len mm_counts
      let placeholders_by_modality := mm_inputs.mm_placeholders
      let total_placeholders_by_modality := totalPlaceholders placeholders_by_modality
      match buildExpected mm_max_tokens_per_item mm_counts placeholders_by_modality with
      | .error e => .error e
      | .ok expected_placeholders_by_modality =>
        if total_placeholders_by_modality ≠ expected_placeholders_by_modality then
          .error (.placeholderMismatch total_placeholders_by_modality
            expected_placeholders_by_modality)
        else
          .ok (mm_inputs, total_placeholders_by_modality)

/-- Embedding of `MultiModalProfiler.get_encoder_dummy_data`.  The boolean component
records whether the overflow `logger.warning_once` statement was reached. -/
def get_encoder_dummy_data {mu om ka : Type}
    (P : MultiModalProcessorModel mu om ka) (seq_len : Nat)
    (mm_counts? : Option (List (Modality × Nat))) :
    Except ProfilingError (DummyEncoderData × Bool) :=
  match get_and_validate_mm_inputs P seq_len mm_counts? with
  | .error e => .error e
  | .ok (mm_inputs, _total_placeholders_by_modality) =>
    let encoder_prompt_token_ids := mm_inputs.encoder_prompt_token_ids
    let total_len := encoder_prompt_token_ids.length
    let warned := decide (total_len > seq_len)
    let encoder_prompt_token_ids :=
      if P.pad_dummy_encoder_prompt then
        encoder_prompt_token_ids ++
          List.replicate (max total_len seq_len - total_len) 0
      else encoder_prompt_token_ids
    .ok (⟨encoder_prompt_token_ids⟩, warned)

/-- Embedding of `MultiModalProfiler.get_decoder_dummy_data`.  Flag `envs.VLLM_USE_V1` is the
explicit argument `vllm_use_v1`; the boolean component records whether the
overflow `logger.warning_once` statement was reached. -/
def get_decoder_dummy_data {mu om ka : Type}
    (P : MultiModalProcessorModel mu om ka) (vllm_use_v1 : Bool) (seq_len : Nat)
    (mm_counts? : Option (List (Modality × Nat))) :
    Except ProfilingError (DummyDecoderData ka × Bool) :=
  match get_and_validate_mm_inputs P seq_len mm_counts? with
  | .error e => .error e
  | .ok (mm_inputs, _total_placeholders_by_modality) =>
    let prompt_token_ids := mm_inputs.prompt_token_ids
    let total_len := prompt_token_ids.length
    let warned := decide (total_len > seq_len) && !vllm_use_v1
    let prompt_token_ids :=
      if total_len < seq_len then
        prompt_token_ids ++ List.replicate (seq_len - total_len) 0
      else prompt_token_ids
    .ok (⟨prompt_token_ids, mm_inputs.mm_kwargs, mm_inputs.mm_placeholders⟩, warned)

/-- Spec-side quantity for the placeholder-consistency claim: the total
number of embeddings over the processed placeholder items of modality `m`
(zero when `m` has no entry in the placeholder mapping). -/
def specEmbedTotal (placeholders_by_modality : List (Modality × List Nat))
    (m : Modality) : Nat :=
  ((placeholders_by_modality.filter (fun p => p.1 == m)).map
    (fun p => p.2.sum)).sum

/-- Concrete processing-info instance: one supported modality "image"
(cap 2), configured limit 1, four placeholder tokens per item. -/
def exInfoGood : BaseProcessingInfo :=
  { get_supported_mm_limits := [("image", some 2)]
    get_limit_per_prompt := fun _ => 1
    get_mm_max_tokens_per_item := fun _ _ => [("image", 4)] }

/-- Concrete processing-info instance whose configured limit (2) exceeds
the supported cap (1). -/
def exInfoBad : BaseProcessingInfo :=
  { get_supported_mm_limits := [("image", some 1)]
    get_limit_per_prompt := fun _ => 2
    get_mm_max_tokens_per_item := fun _ _ => [("image", 4)] }

/-- Concrete processor whose dummy data processes into exactly the
declared number of placeholder tokens (4 = 4 tokens/item x 1 item). -/
def exProcGood : MultiModalProcessorModel Unit Unit Unit :=
  { info := exInfoGood
    get_dummy_processor_inputs := fun _ _ => ⟨"dummy", (), ()⟩
    apply := fun _ _ _ =>
      { prompt_token_ids := [1, 2, 3]
        mm_kwargs := ()
        mm_placeholders := [("image", [2, 2])]
        encoder_prompt_token_ids := [7, 8] }
    pad_dummy_encoder_prompt := true }

/-- Concrete processor whose processed output contains no placeholder
entry at all, although one "image" item with 4 tokens each was requested. -/
def exProcEmptyPh : MultiModalProcessorModel Unit Unit Unit :=
  { info := exInfoGood
    get_dummy_processor_inputs := fun _ _ => ⟨"dummy", (), ()⟩
    apply := fun _ _ _ =>
      { prompt_token_ids := [1, 2, 3]
        mm_kwargs := ()
        mm_placeholders := []
        encoder_prompt_token_ids := [7, 8] }
    pad_dummy_encoder_prompt := true }

/-- Concrete processor whose processed "image" placeholders sum to 1
embedding instead of the declared 4 * 1. -/
def exProcMismatch : MultiModalProcessorModel Unit Unit Unit :=
  { info := exInfoGood
    get_dummy_processor_inputs := fun _ _ => ⟨"dummy", (), ()⟩
    apply := fun _ _ _ =>
      { prompt_token_ids := [1, 2, 3]
        mm_kwargs := ()
        mm_placeholders := [("image", [1])]
        encoder_prompt_token_ids := [7, 8] }
    pad_dummy_encoder_prompt := true }

lemma dictLookup_map_self {β : Type} (f : Modality → Nat)
    (l : List (Modality × β)) (m : Modality) (hm : m ∈ l.map Prod.fst) :
    dictLookup (l.map fun p => (p.1, f p.1)) m = some (f m) := by
  induction l with
  | nil => simp at hm
  | cons a tl ih =>
    by_cases h : a.1 = m
    · subst h
      simp [dictLookup, List.find?]
    · have hm' : m ∈ tl.map Prod.fst := by
        rcases List.mem_cons.mp hm with h1 | h1
        · exact absurd h1.symm h
        · exact h1
      have hbeq : (a.1 == m) = false := by
        simpa using h
      simp only [List.map_cons, dictLookup, List.find?] at ih ⊢
      rw [hbeq]
      exact ih hm'

lemma checkLimits_eq_none_iff (mm_limits : List (Modality × Nat))
    (f : Modality → Nat) :
    ∀ l : List (Modality × Option Nat),
      (∀ m ∈ l.map Prod.fst, (dictLookup mm_limits m).getD 0 = f m) →
      (checkLimits mm_limits l = none ↔
        ∀ m s, (m, some s) ∈ l → ¬ s < f m) := by
  intro l
  induction l with
  | nil =>
    intro _
    simp [checkLimits]
  | cons p tl ih =>
    intro hlk
    obtain ⟨m0, osup⟩ := p
    have hm0 : (dictLookup mm_limits m0).getD 0 = f m0 := hlk m0 (by simp)
    have htl := ih (fun m hm => hlk m (by simp [hm]))
    cases osup with
    | none =>
      simp only [checkLimits]
      rw [htl]
      constructor
      · intro h m s hms
        rcases List.mem_cons.mp hms with h1 | h1
        · simp at h1
        · exact h m s h1
      · intro h m s hms
        exact h m s (List.mem_cons_of_mem _ hms)
    | some s0 =>
      simp only [checkLimits]
      rw [hm0]
      by_cases hc : s0 < f m0
      · simp only [if_pos hc]
        constructor
        · intro h
          simp at h
        · intro h
          exact absurd hc (h m0 s0 (by simp))
      · simp only [if_neg hc]
        rw [htl]
        constructor
        · intro h m s hms
          rcases List.mem_cons.mp hms with h1 | h1
          · simp only [Prod.mk.injEq, Option.some.injEq] at h1
            obtain ⟨hm, hs⟩ := h1
            subst hm
            subst hs
            exact hc
          · exact h m s h1
        · intro h m s hms
          exact h m s (List.mem_cons_of_mem _ hms)

/-- C9: each synthetic-media helper returns exactly the requested number of
buffers, each the deterministic constant-filled buffer of the requested
shape: audio a zero-filled length-`length` array, images an "RGB" image of
the given width and height filled with color value 255, video a 255-filled
array of shape `(num_frames, width, height, 3)`. -/
theorem dummy_media_helpers_spec (length width height num_frames n : Nat) :
    ((_get_dummy_audios length n).length = n ∧
      ∀ a ∈ _get_dummy_audios length n,
        a = { shape := [length], fill := 0 }) ∧
    ((_get_dummy_images width height n).length = n ∧
      ∀ i ∈ _get_dummy_images width height n,
        i = { mode := "RGB", width := width, height := height, color := 255 }) ∧
    ((_get_dummy_videos width height num_frames n).length = n ∧
      ∀ v ∈ _get_dummy_videos width height num_frames n,
        v = { shape := [num_frames, width, height, 3], fill := 255 }) := by
  refine ⟨⟨?_, ?_⟩, ⟨?_, ?_⟩, ⟨?_, ?_⟩⟩ <;>
    simp [_get_dummy_audios, _get_dummy_images, _get_dummy_videos,
      np_zeros1, np_full, Image_new, List.mem_replicate]

/-- Witness: the audio helper at length 5 and count 3, with the membership
hypothesis discharged at a concrete element. -/
theorem dummy_media_helpers_spec_witness :
    (_get_dummy_audios 5 3).length = 3 ∧
    (NDArray.mk [5] 0) = { shape := [5], fill := 0 } :=
  ⟨(dummy_media_helpers_spec 5 4 6 2 3).1.1,
   (dummy_media_helpers_spec 5 4 6 2 3).1.2 (NDArray.mk [5] 0) (by decide)⟩

/-- C4: `get_mm_limits` raises the configuration error iff some modality
has a non-null supported limit strictly below its configured requested
limit; otherwise it returns the requested-limit mapping. -/
theorem get_mm_limits_spec (info : BaseProcessingInfo) :
    ((∃ e, get_mm_limits info = .error e) ↔
      ∃ m s, (m, some s) ∈ info.get_supported_mm_limits ∧
        s < info.get_limit_per_prompt m) ∧
    ((get_mm_limits info = .ok (info.get_supported_mm_limits.map
        (fun p => (p.1, info.get_limit_per_prompt p.1)))) ↔
      ¬ ∃ m s, (m, some s) ∈ info.get_supported_mm_limits ∧
        s < info.get_limit_per_prompt m) := by
  have hlk : ∀ m ∈ info.get_supported_mm_limits.map Prod.fst,
      (dictLookup (info.get_supported_mm_limits.map
        (fun p => (p.1, info.get_limit_per_prompt p.1))) m).getD 0 =
        info.get_limit_per_prompt m := by
    intro m hm
    rw [dictLookup_map_self (info.get_limit_per_prompt) _ m hm]
    rfl
  have hiff := checkLimits_eq_none_iff _ (info.get_limit_per_prompt)
    info.get_supported_mm_limits hlk
  cases h : checkLimits
      (info.get_supported_mm_limits.map
        (fun p => (p.1, info.get_limit_per_prompt p.1)))
      info.get_supported_mm_limits with
  | some e =>
    have hne : ¬ ∀ m s, (m, some s) ∈ info.get_supported_mm_limits →
        ¬ s < info.get_limit_per_prompt m := by
      intro hall
      have := hiff.mpr hall
      rw [h] at this
      simp at this
    push_neg at hne
    constructor
    · simp only [get_mm_limits, h]
      constructor
      · intro _
        obtain ⟨m, s, hm, hs⟩ := hne
        exact ⟨m, s, hm, hs⟩
      · intro _
        exact ⟨e, rfl⟩
    · simp only [get_mm_limits, h]
      constructor
      · intro hcontr
        simp at hcontr
      · intro hex
        obtain ⟨m, s, hm, hs⟩ := hne
        exact absurd ⟨m, s, hm, hs⟩ hex
  | none =>
    have hall := hiff.mp h
    constructor
    · simp only [get_mm_limits, h]
      constructor
      · intro hcontr
        obtain ⟨e, he⟩ := hcontr
        simp at he
      · intro hex
        obtain ⟨m, s, hm, hs⟩ := hex
        exact absurd hs (hall m s hm)
    · simp only [get_mm_limits, h]
      constructor
      · intro _ hex
        obtain ⟨m, s, hm, hs⟩ := hex
        exact absurd hs (hall m s hm)
      · intro _
        trivial

/-- Witness: the configuration where the requested limit 2 exceeds the
supported cap 1 makes `get_mm_limits` raise, and the all-fine configuration
returns its requested-limit mapping. -/
theorem get_mm_limits_spec_witness :
    (∃ e, get_mm_limits exInfoBad = .error e) ∧
    get_mm_limits exInfoGood = .ok [("image", 1)] :=
  ⟨(get_mm_limits_spec exInfoBad).1.mpr
      ⟨"image", 1, by decide, by decide⟩,
   by
    have hnone : ¬ ∃ m s, (m, some s) ∈ exInfoGood.get_supported_mm_limits ∧
        s < exInfoGood.get_limit_per_prompt m := by
      rintro ⟨m, s, hm, hs⟩
      simp only [exInfoGood, List.mem_singleton, Prod.mk.injEq,
        Option.some.injEq] at hm
      obtain ⟨rfl, rfl⟩ := hm
      simp [exInfoGood] at hs
    have := (get_mm_limits_spec exInfoGood).2.mpr hnone
    simpa [exInfoGood] using this⟩

lemma gv_some_eq {mu om ka : Type} (P : MultiModalProcessorModel mu om ka)
    (seq_len : Nat) (mm_counts : List (Modality × Nat)) :
    get_and_validate_mm_inputs P seq_len (some mm_counts) =
      (if (mm_counts.map Prod.fst).any
          (fun k => !(((P.info.get_mm_max_tokens_per_item seq_len
            mm_counts).map Prod.fst).contains k)) then
        .error (.assertSubset (mm_counts.map Prod.fst)
          ((P.info.get_mm_max_tokens_per_item seq_len mm_counts).map Prod.fst))
      else
        match buildExpected (P.info.get_mm_max_tokens_per_item seq_len mm_counts)
            mm_counts (_get_dummy_mm_inputs P seq_len mm_counts).mm_placeholders with
        | .error e => .error e
        | .ok expected =>
          if totalPlaceholders
              (_get_dummy_mm_inputs P seq_len mm_counts).mm_placeholders ≠ expected then
            .error (.placeholderMismatch
              (totalPlaceholders
                (_get_dummy_mm_inputs P seq_len mm_counts).mm_placeholders) expected)
          else
            .ok (_get_dummy_mm_inputs P seq_len mm_counts,
              totalPlaceholders
                (_get_dummy_mm_inputs P seq_len mm_counts).mm_placeholders)) := rfl

lemma buildExpected_error_keyError (a b : List (Modality × Nat)) :
    ∀ (l : List (Modality × List Nat)) (e : ProfilingError),
      buildExpected a b l = .error e → ∃ m, e = .keyError m := by
  intro l
  induction l with
  | nil =>
    intro e h
    simp [buildExpected] at h
  | cons p tl ih =>
    intro e h
    obtain ⟨m0, items0⟩ := p
    simp only [buildExpected] at h
    cases hl1 : dictLookup a m0 with
    | none =>
      rw [hl1] at h
      simp only [Except.error.injEq] at h
      exact ⟨m0, h.symm⟩
    | some maxTok =>
      rw [hl1] at h
      cases hl2 : dictLookup b m0 with
      | none =>
        rw [hl2] at h
        simp only [Except.error.injEq] at h
        exact ⟨m0, h.symm⟩
      | some count =>
        rw [hl2] at h
        cases hl3 : buildExpected a b tl with
        | error e2 =>
          rw [hl3] at h
          simp only [Except.error.injEq] at h
          subst h
          exact ih e2 hl3
        | ok tlv =>
          rw [hl3] at h
          simp at h

lemma totalPlaceholders_ne_of_entry (a b : List (Modality × Nat)) :
    ∀ (phs : List (Modality × List Nat)) (expected : List (Modality × Nat))
      (m : Modality) (items : List Nat) (maxTok count : Nat),
      buildExpected a b phs = .ok expected →
      (m, items) ∈ phs →
      dictLookup a m = some maxTok →
      dictLookup b m = some count →
      items.sum ≠ maxTok * count →
      totalPlaceholders phs ≠ expected := by
  intro phs
  induction phs with
  | nil =>
    intro expected m items maxTok count _ hmem
    simp at hmem
  | cons p tl ih =>
    intro expected m items maxTok count hexp hmem hla hlb hne
    obtain ⟨m0, items0⟩ := p
    simp only [buildExpected] at hexp
    cases hl1 : dictLookup a m0 with
    | none =>
      rw [hl1] at hexp
      simp at hexp
    | some mt0 =>
      rw [hl1] at hexp
      cases hl2 : dictLookup b m0 with
      | none =>
        rw [hl2] at hexp
        simp at hexp
      | some c0 =>
        rw [hl2] at hexp
        cases hl3 : buildExpected a b tl with
        | error e2 =>
          rw [hl3] at hexp
          simp at hexp
        | ok tlexp =>
          rw [hl3] at hexp
          simp only [Except.ok.injEq] at hexp
          subst hexp
          rcases List.mem_cons.mp hmem with h1 | h1
          · simp only [Prod.mk.injEq] at h1
            obtain ⟨rfl, rfl⟩ := h1
            rw [hla] at hl1
            rw [hlb] at hl2
            obtain rfl : maxTok = mt0 := by
              simpa using hl1
            obtain rfl : count = c0 := by
              simpa using hl2
            intro hcontr
            simp only [totalPlaceholders, List.map_cons, List.cons.injEq,
              Prod.mk.injEq] at hcontr
            exact hne hcontr.1.2
          · intro hcontr
            simp only [totalPlaceholders, List.map_cons, List.cons.injEq] at hcontr
            exact ih tlexp m items maxTok count hl3 h1 hla hlb hne hcontr.2

lemma subset_cond_iff (keys maxkeys : List Modality) :
    ((keys.any (fun k => !(maxkeys.contains k))) = true) ↔
      ∃ k, k ∈ keys ∧ k ∉ maxkeys := by
  simp [List.any_eq_true]

/-- C5: `get_and_validate_mm_inputs` raises the key-subset assertion error
iff some modality of `mm_counts` is missing from the mapping returned by
`get_mm_max_tokens_per_item`; and when that is the case the error is the
same for every processor sharing the same processing info — the dummy
builder and `apply` are never consulted. -/
theorem gv_subset_check {mu om ka : Type} (P : MultiModalProcessorModel mu om ka)
    (seq_len : Nat) (mm_counts : List (Modality × Nat)) :
    ((∃ ks ms, get_and_validate_mm_inputs P seq_len (some mm_counts) =
        .error (.assertSubset ks ms)) ↔
      ∃ k, k ∈ mm_counts.map Prod.fst ∧
        k ∉ (P.info.get_mm_max_tokens_per_item seq_len mm_counts).map Prod.fst) ∧
    ((∃ k, k ∈ mm_counts.map Prod.fst ∧
        k ∉ (P.info.get_mm_max_tokens_per_item seq_len mm_counts).map Prod.fst) →
      ∀ (mu2 om2 ka2 : Type) (P2 : MultiModalProcessorModel mu2 om2 ka2),
        P2.info = P.info →
        get_and_validate_mm_inputs P2 seq_len (some mm_counts) =
          .error (.assertSubset (mm_counts.map Prod.fst)
            ((P.info.get_mm_max_tokens_per_item seq_len mm_counts).map Prod.fst))) := by
  constructor
  · rw [gv_some_eq]
    by_cases hcond : (mm_counts.map Prod.fst).any
        (fun k => !(((P.info.get_mm_max_tokens_per_item seq_len
          mm_counts).map Prod.fst).contains k)) = true
    · rw [if_pos hcond]
      exact iff_of_true ⟨_, _, rfl⟩ ((subset_cond_iff _ _).mp hcond)
    · rw [if_neg hcond]
      have hex : ¬ ∃ k, k ∈ mm_counts.map Prod.fst ∧
          k ∉ (P.info.get_mm_max_tokens_per_item seq_len mm_counts).map Prod.fst := by
        rw [← subset_cond_iff]
        simpa using hcond
      refine iff_of_false ?_ hex
      rintro ⟨ks, ms, hcontr⟩
      cases hbe : buildExpected (P.info.get_mm_max_tokens_per_item seq_len mm_counts)
          mm_counts (_get_dummy_mm_inputs P seq_len mm_counts).mm_placeholders with
      | error e =>
        rw [hbe] at hcontr
        obtain ⟨m, rfl⟩ := buildExpected_error_keyError _ _ _ e hbe
        simp at hcontr
      | ok expected =>
        rw [hbe] at hcontr
        dsimp only at hcontr
        split at hcontr
        · simp at hcontr
        · simp at hcontr
  · intro hex mu2 om2 ka2 P2 hinfo
    rw [gv_some_eq, hinfo]
    rw [if_pos ((subset_cond_iff _ _).mpr hex)]

/-- Witness: requesting a "video" item from a model whose max-tokens query
only knows "image" trips the key-subset assertion. -/
theorem gv_subset_check_witness :
    (∃ ks ms, get_and_validate_mm_inputs exProcGood 16 (some [("video", 1)]) =
        .error (.assertSubset ks ms)) ∧
    get_and_validate_mm_inputs exProcEmptyPh 16 (some [("video", 1)]) =
      .error (.assertSubset ["video"] ["image"]) :=
  ⟨(gv_subset_check exProcGood 16 [("video", 1)]).1.mpr
      ⟨"video", by decide, by decide⟩,
   (gv_subset_check exProcGood 16 [("video", 1)]).2
      ⟨"video", by decide, by decide⟩ Unit Unit Unit exProcEmptyPh rfl⟩

lemma gv_some_err_branch {mu om ka : Type} (P : MultiModalProcessorModel mu om ka)
    (seq_len : Nat) (mm_counts : List (Modality × Nat))
    (hcond : ¬ (mm_counts.map Prod.fst).any
      (fun k => !(((P.info.get_mm_max_tokens_per_item seq_len
        mm_counts).map Prod.fst).contains k)) = true)
    (e : ProfilingError)
    (hbe : buildExpected (P.info.get_mm_max_tokens_per_item seq_len mm_counts)
        mm_counts (_get_dummy_mm_inputs P seq_len mm_counts).mm_placeholders =
      .error e) :
    get_and_validate_mm_inputs P seq_len (some mm_counts) = .error e := by
  rw [gv_some_eq, if_neg hcond, hbe]

lemma gv_some_ok_branch {mu om ka : Type} (P : MultiModalProcessorModel mu om ka)
    (seq_len : Nat) (mm_counts : List (Modality × Nat))
    (hcond : ¬ (mm_counts.map Prod.fst).any
      (fun k => !(((P.info.get_mm_max_tokens_per_item seq_len
        mm_counts).map Prod.fst).contains k)) = true)
    (expected : List (Modality × Nat))
    (hbe : buildExpected (P.info.get_mm_max_tokens_per_item seq_len mm_counts)
        mm_counts (_get_dummy_mm_inputs P seq_len mm_counts).mm_placeholders =
      .ok expected) :
    get_and_validate_mm_inputs P seq_len (some mm_counts) =
      (if totalPlaceholders
          (_get_dummy_mm_inputs P seq_len mm_counts).mm_placeholders ≠ expected then
        .error (.placeholderMismatch
          (totalPlaceholders
            (_get_dummy_mm_inputs P seq_len mm_counts).mm_placeholders) expected)
      else
        .ok (_get_dummy_mm_inputs P seq_len mm_counts,
          totalPlaceholders
            (_get_dummy_mm_inputs P seq_len mm_counts).mm_placeholders)) := by
  rw [gv_some_eq, if_neg hcond, hbe]

/-- Counterexample to C1 as stated: "image" is in `mm_counts` with an
actual placeholder-embedding total of 0 while the declared expectation is
4 * 1 = 4, yet `get_and_validate_mm_inputs` returns normally, because the
processed placeholder mapping has no "image" entry at all and both
comparison mappings range only over the placeholder mapping's modalities. -/
theorem gv_mismatch_counterexample :
    get_and_validate_mm_inputs exProcEmptyPh 16 (some [("image", 1)]) =
      .ok (_get_dummy_mm_inputs exProcEmptyPh 16 [("image", 1)], []) ∧
    "image" ∈ ([("image", 1)] : List (Modality × Nat)).map Prod.fst ∧
    specEmbedTotal
      (_get_dummy_mm_inputs exProcEmptyPh 16 [("image", 1)]).mm_placeholders
      "image" = 0 ∧
    dictLookup (exProcEmptyPh.info.get_mm_max_tokens_per_item 16 [("image", 1)])
      "image" = some 4 ∧
    dictLookup ([("image", 1)] : List (Modality × Nat)) "image" = some 1 ∧
    specEmbedTotal
      (_get_dummy_mm_inputs exProcEmptyPh 16 [("image", 1)]).mm_placeholders
      "image" ≠ 4 * 1 := by
  refine ⟨rfl, by decide, by decide, by decide, by decide, by decide⟩

/-- C1 (amended): whenever some modality that does appear in the processed
placeholder mapping, with defined max-tokens and count lookups, has an
actual embedding total different from max-tokens-per-item times its count,
`get_and_validate_mm_inputs` never returns normally. -/
theorem gv_mismatch_raises {mu om ka : Type} (P : MultiModalProcessorModel mu om ka)
    (seq_len : Nat) (mm_counts : List (Modality × Nat)) (m : Modality)
    (items : List Nat) (maxTok count : Nat)
    (hmem : (m, items) ∈ (_get_dummy_mm_inputs P seq_len mm_counts).mm_placeholders)
    (hmax : dictLookup (P.info.get_mm_max_tokens_per_item seq_len mm_counts) m =
      some maxTok)
    (hcnt : dictLookup mm_counts m = some count)
    (hne : items.sum ≠ maxTok * count) :
    ∃ e, get_and_validate_mm_inputs P seq_len (some mm_counts) = .error e := by
  by_cases hcond : (mm_counts.map Prod.fst).any
      (fun k => !(((P.info.get_mm_max_tokens_per_item seq_len
        mm_counts).map Prod.fst).contains k)) = true
  · rw [gv_some_eq, if_pos hcond]
    exact ⟨_, rfl⟩
  · cases hbe : buildExpected (P.info.get_mm_max_tokens_per_item seq_len mm_counts)
        mm_counts (_get_dummy_mm_inputs P seq_len mm_counts).mm_placeholders with
    | error e =>
      exact ⟨e, gv_some_err_branch P seq_len mm_counts hcond e hbe⟩
    | ok expected =>
      have hnexp := totalPlaceholders_ne_of_entry _ _ _ expected m items maxTok
        count hbe hmem hmax hcnt hne
      rw [gv_some_ok_branch P seq_len mm_counts hcond expected hbe, if_pos hnexp]
      exact ⟨_, rfl⟩

/-- Witness: a processed "image" placeholder total of 1 against the
declared 4 * 1 makes `get_and_validate_mm_inputs` raise. -/
theorem gv_mismatch_raises_witness :
    ∃ e, get_and_validate_mm_inputs exProcMismatch 16 (some [("image", 1)]) =
      .error e :=
  gv_mismatch_raises exProcMismatch 16 [("image", 1)] "image" [1] 4 1
    (by decide) (by decide) (by decide) (by decide)

/-- C6: a modality of `mm_counts` with positive count and positive
max-tokens-per-item that is absent from the processed placeholder mapping
is silently skipped: both comparison mappings are computed only over the
placeholder mapping's modalities, so validation returns normally whenever
the remaining entries are consistent. -/
theorem gv_missing_modality_ok {mu om ka : Type}
    (P : MultiModalProcessorModel mu om ka) (seq_len : Nat)
    (mm_counts : List (Modality × Nat)) (m : Modality) (cnt maxTok : Nat)
    (_hcnt : dictLookup mm_counts m = some cnt) (_hcpos : 0 < cnt)
    (_hmax : dictLookup (P.info.get_mm_max_tokens_per_item seq_len mm_counts) m =
      some maxTok)
    (_hmpos : 0 < maxTok)
    (hmiss : m ∉ ((_get_dummy_mm_inputs P seq_len mm_counts).mm_placeholders).map
      Prod.fst)
    (hsub : ∀ k ∈ mm_counts.map Prod.fst,
      k ∈ (P.info.get_mm_max_tokens_per_item seq_len mm_counts).map Prod.fst)
    (hexp : buildExpected (P.info.get_mm_max_tokens_per_item seq_len mm_counts)
        mm_counts (_get_dummy_mm_inputs P seq_len mm_counts).mm_placeholders =
      .ok (totalPlaceholders
        (_get_dummy_mm_inputs P seq_len mm_counts).mm_placeholders)) :
    get_and_validate_mm_inputs P seq_len (some mm_counts) =
      .ok (_get_dummy_mm_inputs P seq_len mm_counts,
        totalPlaceholders (_get_dummy_mm_inputs P seq_len mm_counts).mm_placeholders) ∧
    m ∉ (totalPlaceholders
      (_get_dummy_mm_inputs P seq_len mm_counts).mm_placeholders).map Prod.fst := by
  have hcond : ¬ (mm_counts.map Prod.fst).any
      (fun k => !(((P.info.get_mm_max_tokens_per_item seq_len
        mm_counts).map Prod.fst).contains k)) = true := by
    rw [subset_cond_iff]
    rintro ⟨k, hk, hnk⟩
    exact hnk (hsub k hk)
  constructor
  · rw [gv_some_ok_branch P seq_len mm_counts hcond _ hexp]
    rw [if_neg (by simp)]
  · intro hcontr
    apply hmiss
    simpa [totalPlaceholders] using hcontr

/-- Witness: the empty-placeholder processor requests one "image" item
with 4 tokens each, yet validation succeeds with empty totals. -/
theorem gv_missing_modality_ok_witness :
    get_and_validate_mm_inputs exProcEmptyPh 16 (some [("image", 1)]) =
      .ok (_get_dummy_mm_inputs exProcEmptyPh 16 [("image", 1)],
        totalPlaceholders
          (_get_dummy_mm_inputs exProcEmptyPh 16 [("image", 1)]).mm_placeholders) ∧
    "image" ∉ (totalPlaceholders
      (_get_dummy_mm_inputs exProcEmptyPh 16 [("image", 1)]).mm_placeholders).map
        Prod.fst :=
  gv_missing_modality_ok exProcEmptyPh 16 [("image", 1)] "image" 1 4
    (by decide) (by decide) (by decide) (by decide) (by decide)
    (by decide) rfl

lemma ged_eq_of_val {mu om ka : Type} (P : MultiModalProcessorModel mu om ka)
    (seq_len : Nat) (mm_counts? : Option (List (Modality × Nat)))
    (mi : MultiModalInputs ka) (tot : List (Modality × Nat))
    (hval : get_and_validate_mm_inputs P seq_len mm_counts? = .ok (mi, tot)) :
    get_encoder_dummy_data P seq_len mm_counts? =
      .ok (⟨if P.pad_dummy_encoder_prompt then
          mi.encoder_prompt_token_ids ++
            List.replicate (max mi.encoder_prompt_token_ids.length seq_len -
              mi.encoder_prompt_token_ids.length) 0
        else mi.encoder_prompt_token_ids⟩,
        decide (mi.encoder_prompt_token_ids.length > seq_len)) := by
  unfold get_encoder_dummy_data
  rw [hval]

lemma gdd_eq_of_val {mu om ka : Type} (P : MultiModalProcessorModel mu om ka)
    (vllm_use_v1 : Bool) (seq_len : Nat)
    (mm_counts? : Option (List (Modality × Nat)))
    (mi : MultiModalInputs ka) (tot : List (Modality × Nat))
    (hval : get_and_validate_mm_inputs P seq_len mm_counts? = .ok (mi, tot)) :
    get_decoder_dummy_data P vllm_use_v1 seq_len mm_counts? =
      .ok (⟨(if mi.prompt_token_ids.length < seq_len then
          mi.prompt_token_ids ++
            List.replicate (seq_len - mi.prompt_token_ids.length) 0
        else mi.prompt_token_ids), mi.mm_kwargs, mi.mm_placeholders⟩,
        decide (mi.prompt_token_ids.length > seq_len) && !vllm_use_v1) := by
  unfold get_decoder_dummy_data
  rw [hval]

/-- C2: the decoder token sequence of length `total_len` produced by the
validation step is right-padded with token id 0 to exactly `seq_len` when
`total_len < seq_len`, and returned unchanged (never truncated) when
`total_len ≥ seq_len`. -/
theorem decoder_padding_spec {mu om ka : Type}
    (P : MultiModalProcessorModel mu om ka) (vllm_use_v1 : Bool) (seq_len : Nat)
    (mm_counts? : Option (List (Modality × Nat)))
    (mi : MultiModalInputs ka) (tot : List (Modality × Nat))
    (hval : get_and_validate_mm_inputs P seq_len mm_counts? = .ok (mi, tot)) :
    ∃ d w, get_decoder_dummy_data P vllm_use_v1 seq_len mm_counts? = .ok (d, w) ∧
      (mi.prompt_token_ids.length < seq_len →
        d.prompt_token_ids = mi.prompt_token_ids ++
          List.replicate (seq_len - mi.prompt_token_ids.length) 0 ∧
        d.prompt_token_ids.length = seq_len ∧
        ∀ i, mi.prompt_token_ids.length ≤ i → i < seq_len →
          d.prompt_token_ids[i]? = some 0) ∧
      (seq_len ≤ mi.prompt_token_ids.length →
        d.prompt_token_ids = mi.prompt_token_ids ∧
        d.prompt_token_ids.length = mi.prompt_token_ids.length) := by
  refine ⟨_, _, gdd_eq_of_val P vllm_use_v1 seq_len mm_counts? mi tot hval, ?_, ?_⟩
  · intro hlt
    rw [if_pos hlt]
    refine ⟨rfl, by simp; omega, ?_⟩
    intro i h1 h2
    rw [List.getElem?_append_right h1, List.getElem?_replicate,
      if_pos (by omega)]
  · intro hge
    rw [if_neg (not_lt.mpr hge)]
    exact ⟨rfl, rfl⟩

/-- Witness: with a 3-token decoder prompt and `seq_len = 16`, the decoder
dummy data is returned without raising. -/
theorem decoder_padding_spec_witness :
    ∃ d w, get_decoder_dummy_data exProcGood false 16 (some [("image", 1)]) =
      .ok (d, w) := by
  obtain ⟨d, w, h, _⟩ := decoder_padding_spec exProcGood false 16
    (some [("image", 1)]) _ _ rfl
  exact ⟨d, w, h⟩

/-- C3: the encoder token sequence of length `total_len` is right-padded
with token id 0 to `max(total_len, seq_len)` when the processor declares
`pad_dummy_encoder_prompt`, and returned unchanged otherwise; it is never
truncated. -/
theorem encoder_padding_spec {mu om ka : Type}
    (P : MultiModalProcessorModel mu om ka) (seq_len : Nat)
    (mm_counts? : Option (List (Modality × Nat)))
    (mi : MultiModalInputs ka) (tot : List (Modality × Nat))
    (hval : get_and_validate_mm_inputs P seq_len mm_counts? = .ok (mi, tot)) :
    ∃ ed w, get_encoder_dummy_data P seq_len mm_counts? = .ok (ed, w) ∧
      (P.pad_dummy_encoder_prompt = true →
        ed.prompt_token_ids = mi.encoder_prompt_token_ids ++
          List.replicate (max mi.encoder_prompt_token_ids.length seq_len -
            mi.encoder_prompt_token_ids.length) 0 ∧
        ed.prompt_token_ids.length = max mi.encoder_prompt_token_ids.length seq_len ∧
        ∀ i, mi.encoder_prompt_token_ids.length ≤ i →
          i < max mi.encoder_prompt_token_ids.length seq_len →
          ed.prompt_token_ids[i]? = some 0) ∧
      (P.pad_dummy_encoder_prompt = false →
        ed.prompt_token_ids = mi.encoder_prompt_token_ids ∧
        ed.prompt_token_ids.length = mi.encoder_prompt_token_ids.length) := by
  refine ⟨_, _, ged_eq_of_val P seq_len mm_counts? mi tot hval, ?_, ?_⟩
  · intro hpad
    rw [if_pos hpad]
    refine ⟨rfl, by simp, ?_⟩
    intro i h1 h2
    rw [List.getElem?_append_right h1, List.getElem?_replicate,
      if_pos (by omega)]
  · intro hpad
    rw [if_neg (by simp [hpad])]
    exact ⟨rfl, rfl⟩

/-- Witness: with a 2-token encoder prompt, `seq_len = 16` and the padding
flag set, the encoder dummy data is returned without raising. -/
theorem encoder_padding_spec_witness :
    ∃ ed w, get_encoder_dummy_data exProcGood 16 (some [("image", 1)]) =
      .ok (ed, w) := by
  obtain ⟨ed, w, h, _⟩ := encoder_padding_spec exProcGood 16
    (some [("image", 1)]) _ _ rfl
  exact ⟨ed, w, h⟩

/-- C7: once validation succeeds, both shaping calls return normally; the
decoder overflow warning fires iff `total_len > seq_len` and the
chunked-decoding runtime flag is off, and the encoder overflow warning
fires iff `total_len > seq_len`. -/
theorem overflow_warning_spec {mu om ka : Type}
    (P : MultiModalProcessorModel mu om ka) (vllm_use_v1 : Bool) (seq_len : Nat)
    (mm_counts? : Option (List (Modality × Nat)))
    (mi : MultiModalInputs ka) (tot : List (Modality × Nat))
    (hval : get_and_validate_mm_inputs P seq_len mm_counts? = .ok (mi, tot)) :
    (∃ d w, get_decoder_dummy_data P vllm_use_v1 seq_len mm_counts? = .ok (d, w) ∧
      (w = true ↔ mi.prompt_token_ids.length > seq_len ∧ vllm_use_v1 = false)) ∧
    (∃ ed w, get_encoder_dummy_data P seq_len mm_counts? = .ok (ed, w) ∧
      (w = true ↔ mi.encoder_prompt_token_ids.length > seq_len)) := by
  constructor
  · refine ⟨_, _, gdd_eq_of_val P vllm_use_v1 seq_len mm_counts? mi tot hval, ?_⟩
    cases vllm_use_v1 <;> simp
  · refine ⟨_, _, ged_eq_of_val P seq_len mm_counts? mi tot hval, ?_⟩
    simp

/-- Witness: a 3-token decoder prompt against `seq_len = 2` with the V1
flag off fires the decoder warning, and the call still returns data. -/
theorem overflow_warning_spec_witness :
    ∃ d w, get_decoder_dummy_data exProcGood false 2 (some [("image", 1)]) =
      .ok (d, w) ∧ (w = true ↔
        (_get_dummy_mm_inputs exProcGood 2
          [("image", 1)]).prompt_token_ids.length > 2 ∧ false = false) :=
  (overflow_warning_spec exProcGood false 2 (some [("image", 1)]) _ _ rfl).1

/-- C8: the multimodal payload and placeholder mapping of the decoder
dummy data are exactly those of the validated processed inputs, unmodified
by the shaping step. -/
theorem decoder_frame_spec {mu om ka : Type}
    (P : MultiModalProcessorModel mu om ka) (vllm_use_v1 : Bool) (seq_len : Nat)
    (mm_counts? : Option (List (Modality × Nat)))
    (mi : MultiModalInputs ka) (tot : List (Modality × Nat))
    (hval : get_and_validate_mm_inputs P seq_len mm_counts? = .ok (mi, tot)) :
    ∃ d w, get_decoder_dummy_data P vllm_use_v1 seq_len mm_counts? = .ok (d, w) ∧
      d.multi_modal_data = mi.mm_kwargs ∧
      d.multi_modal_placeholders = mi.mm_placeholders := by
  exact ⟨_, _, gdd_eq_of_val P vllm_use_v1 seq_len mm_counts? mi tot hval,
    rfl, rfl⟩

/-- Witness: the decoder dummy data of the consistent example carries the
processed payload and placeholders through unchanged. -/
theorem decoder_frame_spec_witness :
    ∃ d w, get_decoder_dummy_data exProcGood false 16 (some [("image", 1)]) =
      .ok (d, w) ∧
      d.multi_modal_data = (_get_dummy_mm_inputs exProcGood 16
        [("image", 1)]).mm_kwargs ∧
      d.multi_modal_placeholders = (_get_dummy_mm_inputs exProcGood 16
        [("image", 1)]).mm_placeholders :=
  decoder_frame_spec exProcGood false 16 (some [("image", 1)]) _ _ rfl

/-- C10: the profiling pipeline is a pure function of its inputs and
configuration: two profilers whose processing info, dummy-input builder,
`apply` and padding flag behave identically produce identical validation
results, encoder dummy data and decoder dummy data on identical
`(seq_len, mm_counts)` arguments. -/
theorem profiler_deterministic {mu om ka : Type}
    (P1 P2 : MultiModalProcessorModel mu om ka) (vllm_use_v1 : Bool)
    (seq_len : Nat) (mm_counts? : Option (List (Modality × Nat)))
    (hinfo : P1.info = P2.info)
    (hbuild : ∀ a b, P1.get_dummy_processor_inputs a b =
      P2.get_dummy_processor_inputs a b)
    (happly : ∀ a b c, P1.apply a b c = P2.apply a b c)
    (hpad : P1.pad_dummy_encoder_prompt = P2.pad_dummy_encoder_prompt) :
    get_and_validate_mm_inputs P1 seq_len mm_counts? =
      get_and_validate_mm_inputs P2 seq_len mm_counts? ∧
    get_encoder_dummy_data P1 seq_len mm_counts? =
      get_encoder_dummy_data P2 seq_len mm_counts? ∧
    get_decoder_dummy_data P1 vllm_use_v1 seq_len mm_counts? =
      get_decoder_dummy_data P2 vllm_use_v1 seq_len mm_counts? := by
  have hP : P1 = P2 := by
    cases P1
    cases P2
    dsimp at hinfo hbuild happly hpad
    subst hinfo
    subst hpad
    congr 1
    · funext a b
      exact hbuild a b
    · funext a b c
      exact happly a b c
  rw [hP]
  exact ⟨rfl, rfl, rfl⟩

/-- Witness: two calls against the same concrete configuration agree. -/
theorem profiler_deterministic_witness :
    get_and_validate_mm_inputs exProcGood 16 (some [("image", 1)]) =
      get_and_validate_mm_inputs exProcGood 16 (some [("image", 1)]) ∧
    get_encoder_dummy_data exProcGood 16 (some [("image", 1)]) =
      get_encoder_dummy_data exProcGood 16 (some [("image", 1)]) ∧
    get_decoder_dummy_data exProcGood false 16 (some [("image", 1)]) =
      get_decoder_dummy_data exProcGood false 16 (some [("image", 1)]) :=
  profiler_deterministic exProcGood exProcGood false 16 (some [("image", 1)])
    rfl (fun _ _ => rfl) (fun _ _ _ => rfl) rfl
